import Mathlib

/-!
# The beehive message envelope (`beehive/pkg/core/model/message.go`)

A shallow embedding of package `model`: the `Message` envelope with its header,
route and payload, the chained mutators, and the factory functions that derive
clones, responses and error messages.

Conventions of the embedding.

* A method with receiver `msg *Message` that assigns fields of `*msg` and returns
  `msg` becomes a function from the message value before the call to the message
  value after it. Pointers are assumed non-nil wherever the source dereferences them.
* `interface{}` payloads are values of `Payload α`: the nil interface, a Go string,
  or any other dynamic value, drawn from an arbitrary type `α`.
* `uuid.NewV4().String()` and `time.Now().UnixNano()` read the outside world. The
  world is an explicit state `World`: two streams (the tokens the generator will
  return, the clock readings) and the number of calls made so far on each.
* `int64` timestamps are integers; the only arithmetic on them is the division
  by `1e6` in `NewMessage`, which Go truncates toward zero.
-/

namespace model

/-! ## Constants -/

def InsertOperation : String := "insert"
def DeleteOperation : String := "delete"
def QueryOperation : String := "query"
def UpdateOperation : String := "update"
def ResponseOperation : String := "response"
def ResponseErrorOperation : String := "error"

def ResourceTypePod : String := "pod"
def ResourceTypeConfigmap : String := "configmap"
def ResourceTypeSecret : String := "secret"
def ResourceTypeNode : String := "node"
def ResourceTypePodlist : String := "podlist"
def ResourceTypePodStatus : String := "podstatus"
def ResourceTypeNodeStatus : String := "nodestatus"

/-! ## Data model -/

/-- Dynamic value stored in a field of Go type `interface{}`: `nil` is the nil
interface (no content), `text s` a Go string, `other a` any other value. -/
inductive Payload (α : Type) where
  | nil : Payload α
  | text (s : String) : Payload α
  | other (a : α) : Payload α
  deriving DecidableEq, Repr

/-- Go struct `MessageRoute`; the defaults are the Go zero values. -/
structure MessageRoute where
  Source : String := ""
  Group : String := ""
  Operation : String := ""
  Resource : String := ""
  deriving DecidableEq, Repr

/-- Go struct `MessageHeader`; the defaults are the Go zero values. -/
structure MessageHeader where
  ID : String := ""
  ParentID : String := ""
  Timestamp : Int := 0
  Sync : Bool := false
  deriving DecidableEq, Repr

/-- Go struct `Message`; `Message α` with every default is the literal `Message{}`. -/
structure Message (α : Type) where
  Header : MessageHeader := {}
  Router : MessageRoute := {}
  Content : Payload α := Payload.nil
  deriving DecidableEq, Repr

/-! ## The outside world: identifier generator and clock -/

/-- State of the two external services the package calls.
`uuid k` is the token returned by the call number `k` (from 0) of
`uuid.NewV4().String()`, `unixNano k` the reading returned by the call number `k`
of `time.Now().UnixNano()`; `uuidCalls` and `clockCalls` count the calls made. -/
structure World where
  uuid : Nat → String
  unixNano : Nat → Int
  uuidCalls : Nat
  clockCalls : Nat

namespace World

/-- The call `uuid.NewV4().String()`: returns the next token of the stream. -/
def newV4String (w : World) : String × World :=
  (w.uuid w.uuidCalls, { w with uuidCalls := w.uuidCalls + 1 })

/-- The call `time.Now().UnixNano()`: returns the next clock reading. -/
def nowUnixNano (w : World) : Int × World :=
  (w.unixNano w.clockCalls, { w with clockCalls := w.clockCalls + 1 })

/-- Tokens the generator has issued so far, oldest first. -/
def issued (w : World) : List String :=
  (List.range w.uuidCalls).map w.uuid

/-- Every token the generator returns from now on is one it has not issued before. -/
def FreshTokens (w : World) : Prop :=
  ∀ k, w.uuidCalls ≤ k → ∀ j, j < k → w.uuid k ≠ w.uuid j

/-- Every token the generator returns from now on is a non-empty string. -/
def NonEmptyTokens (w : World) : Prop :=
  ∀ k, w.uuidCalls ≤ k → w.uuid k ≠ ""

end World

/-! ## Mutators and accessors (methods of `*Message`) -/

namespace Message

variable {α : Type}

def SetResourceOperation (msg : Message α) (res opr : String) : Message α :=
  let msg := { msg with Router := { msg.Router with Resource := res } }
  let msg := { msg with Router := { msg.Router with Operation := opr } }
  msg

def SetRoute (msg : Message α) (source group : String) : Message α :=
  let msg := { msg with Router := { msg.Router with Source := source } }
  let msg := { msg with Router := { msg.Router with Group := group } }
  msg

def BuildRouter (msg : Message α) (source group res opr : String) : Message α :=
  let msg := msg.SetRoute source group
  let msg := msg.SetResourceOperation res opr
  msg

def IsSync (msg : Message α) : Bool := msg.Header.Sync

def GetResource (msg : Message α) : String := msg.Router.Resource

def GetOperation (msg : Message α) : String := msg.Router.Operation

def GetSource (msg : Message α) : String := msg.Router.Source

def GetGroup (msg : Message α) : String := msg.Router.Group

def GetID (msg : Message α) : String := msg.Header.ID

def GetParentID (msg : Message α) : String := msg.Header.ParentID

def GetTimestamp (msg : Message α) : Int := msg.Header.Timestamp

def GetContent (msg : Message α) : Payload α := msg.Content

/-- Method `UpdateID`: one call of the generator, stored in the header id. -/
def UpdateID (msg : Message α) (w : World) : Message α × World :=
  let r := w.newV4String
  ({ msg with Header := { msg.Header with ID := r.1 } }, r.2)

def BuildHeader (msg : Message α) (ID parentID : String) (timestamp : Int) : Message α :=
  let msg := { msg with Header := { msg.Header with ID := ID } }
  let msg := { msg with Header := { msg.Header with ParentID := parentID } }
  let msg := { msg with Header := { msg.Header with Timestamp := timestamp } }
  msg

def FillBody (msg : Message α) (content : Payload α) : Message α :=
  { msg with Content := content }

end Message

/-! ## Factory and derivation functions -/

section Factory

variable {α : Type}

/-- Function `NewRawMessage`: the literal `&Message{}`. -/
def NewRawMessage : Message α := {}

/-- Function `NewMessage`: `Message{}` whose header gets a generated id, the given
parent id and `time.Now().UnixNano() / 1e6` (Go integer division, truncating). -/
def NewMessage (w : World) (parentId : String) : Message α × World :=
  let msg : Message α := {}
  let u := w.newV4String
  let msg := { msg with Header := { msg.Header with ID := u.1 } }
  let msg := { msg with Header := { msg.Header with ParentID := parentId } }
  let t := u.2.nowUnixNano
  let msg := { msg with Header := { msg.Header with Timestamp := Int.tdiv t.1 1000000 } }
  (msg, t.2)

/-- Method `Clone`; the receiver `msg` is an argument like in the source. -/
def Message.Clone (_msg : Message α) (w : World) (message : Message α) : Message α × World :=
  let u := w.newV4String
  let msgID := u.1
  ((((NewRawMessage : Message α).BuildHeader msgID message.GetParentID message.GetTimestamp).BuildRouter
      message.GetSource message.GetGroup message.GetResource message.GetOperation).FillBody
      message.GetContent, u.2)

/-- Method `NewRespByMessage`; the receiver `msg` is an argument like in the source. -/
def Message.NewRespByMessage (_msg : Message α) (w : World) (message : Message α)
    (content : Payload α) : Message α × World :=
  let n := NewMessage w message.GetID
  (((n.1.SetRoute message.GetSource message.GetGroup).SetResourceOperation
      message.GetResource ResponseOperation).FillBody content, n.2)

/-- Function `NewErrorMessage`; the Go string `errContent` is boxed into the payload. -/
def NewErrorMessage (w : World) (message : Message α) (errContent : String) :
    Message α × World :=
  let n := NewMessage w message.Header.ParentID
  ((n.1.SetResourceOperation message.Router.Resource ResponseErrorOperation).FillBody
      (Payload.text errContent), n.2)

end Factory

/-! ## The same operations on pointers

The functions above describe what a call does to the message it works on. Here
the messages live in a memory and the operations take and return `*Message`
pointers, as in the source: a mutator writes through its receiver and returns it,
a factory allocates a new cell, and reading through `nil` panics (`none`). The
calls are made in the order Go evaluates them. -/

/-- The messages allocated so far; cell `a` is the message at address `a`. -/
structure Mem (α : Type) where
  cells : List (Message α)
  deriving DecidableEq, Repr

/-- A `*Message`: `none` is `nil`, `some a` the address `a`. -/
abbrev Ptr : Type := Option Nat

namespace Mem

variable {α : Type}

/-- Read `*p`; `none` when `p` is nil or points to no cell. -/
def load (h : Mem α) (p : Ptr) : Option (Message α) :=
  match p with
  | none => none
  | some a => h.cells[a]?

/-- The expression `&Message{...}`: a new cell after the existing ones. -/
def alloc (h : Mem α) (m : Message α) : Ptr × Mem α :=
  (some h.cells.length, { cells := h.cells ++ [m] })

/-- Assign fields of `*p` in place, as described by `f`, and return `p`. -/
def mutate (h : Mem α) (p : Ptr) (f : Message α → Message α) : Option (Ptr × Mem α) :=
  match p with
  | none => none
  | some a =>
    match h.cells[a]? with
    | none => none
    | some m => some (some a, { cells := h.cells.set a (f m) })

def SetResourceOperation (h : Mem α) (msg : Ptr) (res opr : String) : Option (Ptr × Mem α) :=
  h.mutate msg (fun m => m.SetResourceOperation res opr)

def SetRoute (h : Mem α) (msg : Ptr) (source group : String) : Option (Ptr × Mem α) :=
  h.mutate msg (fun m => m.SetRoute source group)

def BuildRouter (h : Mem α) (msg : Ptr) (source group res opr : String) :
    Option (Ptr × Mem α) := do
  let r1 ← h.SetRoute msg source group
  let r2 ← r1.2.SetResourceOperation msg res opr
  pure (msg, r2.2)

def GetResource (h : Mem α) (msg : Ptr) : Option String := (h.load msg).map Message.GetResource

def GetOperation (h : Mem α) (msg : Ptr) : Option String := (h.load msg).map Message.GetOperation

def GetSource (h : Mem α) (msg : Ptr) : Option String := (h.load msg).map Message.GetSource

def GetGroup (h : Mem α) (msg : Ptr) : Option String := (h.load msg).map Message.GetGroup

def GetID (h : Mem α) (msg : Ptr) : Option String := (h.load msg).map Message.GetID

def GetParentID (h : Mem α) (msg : Ptr) : Option String := (h.load msg).map Message.GetParentID

def GetTimestamp (h : Mem α) (msg : Ptr) : Option Int := (h.load msg).map Message.GetTimestamp

def GetContent (h : Mem α) (msg : Ptr) : Option (Payload α) :=
  (h.load msg).map Message.GetContent

def BuildHeader (h : Mem α) (msg : Ptr) (ID parentID : String) (timestamp : Int) :
    Option (Ptr × Mem α) :=
  h.mutate msg (fun m => m.BuildHeader ID parentID timestamp)

def FillBody (h : Mem α) (msg : Ptr) (content : Payload α) : Option (Ptr × Mem α) :=
  h.mutate msg (fun m => m.FillBody content)

def NewRawMessage (h : Mem α) : Ptr × Mem α := h.alloc {}

def NewMessage (h : Mem α) (w : World) (parentId : String) : Option (Ptr × Mem α × World) := do
  let r0 := h.alloc {}
  let u := w.newV4String
  let r1 ← r0.2.mutate r0.1 (fun m => { m with Header := { m.Header with ID := u.1 } })
  let r2 ← r1.2.mutate r1.1
    (fun m => { m with Header := { m.Header with ParentID := parentId } })
  let t := u.2.nowUnixNano
  let r3 ← r2.2.mutate r2.1
    (fun m => { m with Header := { m.Header with Timestamp := Int.tdiv t.1 1000000 } })
  pure (r3.1, r3.2, t.2)

/-- Method `Clone` with receiver `msg` and argument `message`, both pointers. -/
def Clone (h : Mem α) (w : World) (_msg message : Ptr) : Option (Ptr × Mem α × World) := do
  let u := w.newV4String
  let msgID := u.1
  let r0 := h.NewRawMessage
  let parentID ← r0.2.GetParentID message
  let timestamp ← r0.2.GetTimestamp message
  let r1 ← r0.2.BuildHeader r0.1 msgID parentID timestamp
  let source ← r1.2.GetSource message
  let group ← r1.2.GetGroup message
  let res ← r1.2.GetResource message
  let opr ← r1.2.GetOperation message
  let r2 ← r1.2.BuildRouter r1.1 source group res opr
  let content ← r2.2.GetContent message
  let r3 ← r2.2.FillBody r2.1 content
  pure (r3.1, r3.2, u.2)

/-- Method `NewRespByMessage` with receiver `msg` and argument `message`. -/
def NewRespByMessage (h : Mem α) (w : World) (_msg message : Ptr) (content : Payload α) :
    Option (Ptr × Mem α × World) := do
  let id ← h.GetID message
  let r0 ← h.NewMessage w id
  let source ← r0.2.1.GetSource message
  let group ← r0.2.1.GetGroup message
  let r1 ← r0.2.1.SetRoute r0.1 source group
  let res ← r1.2.GetResource message
  let r2 ← r1.2.SetResourceOperation r1.1 res ResponseOperation
  let r3 ← r2.2.FillBody r2.1 content
  pure (r3.1, r3.2, r0.2.2)

/-- Function `NewErrorMessage` with argument `message`, a pointer. -/
def NewErrorMessage (h : Mem α) (w : World) (message : Ptr) (errContent : String) :
    Option (Ptr × Mem α × World) := do
  let parentID ← (h.load message).map (fun m => m.Header.ParentID)
  let r0 ← h.NewMessage w parentID
  let res ← (r0.2.1.load message).map (fun m => m.Router.Resource)
  let r1 ← r0.2.1.SetResourceOperation r0.1 res ResponseErrorOperation
  let r2 ← r1.2.FillBody r1.1 (Payload.text errContent)
  pure (r2.1, r2.2, r0.2.2)

/-- The call returned, and every message that was in memory before it is still
there, unchanged, after it. -/
def Preserved (h : Mem α) (r : Option (Ptr × Mem α × World)) : Prop :=
  ∃ p h2 w2, r = some (p, h2, w2) ∧ ∀ q y, h.load q = some y → h2.load q = some y

end Mem

/-! ## Wire form

The package declares the wire names of the fields in struct tags and contains
no encoder or decoder. The records and the two functions below are the wire
representation as the specification describes it. -/

/-- Modelled from the spec: the encoder and decoder are not in the package. Wire
record of a header, with the fields `msg_id`, `parent_msg_id` (wire-optional),
`timestamp` and `sync` (wire-optional); an optional field left out of the record
is `none`. -/
structure WireHeader where
  msg_id : String
  parent_msg_id : Option String
  timestamp : Int
  sync : Option Bool
  deriving DecidableEq, Repr

/-- Modelled from the spec: the encoder and decoder are not in the package. Wire
record of a route, with the fields `source`, `group`, `operation` and `resource`,
all wire-optional. -/
structure WireRoute where
  source : Option String
  group : Option String
  operation : Option String
  resource : Option String
  deriving DecidableEq, Repr

/-- Modelled from the spec: the encoder and decoder are not in the package. Wire
record of an envelope, with the three top-level fields `header`, `route`
(wire-optional when empty) and `content` (always present, opaque). -/
structure WireMessage (α : Type) where
  header : WireHeader
  route : Option WireRoute
  content : Payload α
  deriving DecidableEq, Repr

/-- Modelled from the spec: the encoder is not in the package. A wire-optional
string field is dropped when it is empty. -/
def omitEmptyString (s : String) : Option String :=
  if s = "" then none else some s

/-- Modelled from the spec: the encoder is not in the package. The wire-optional
flag `sync` is dropped when it is false. -/
def omitFalse (b : Bool) : Option Bool :=
  if b = true then some true else none

/-- Modelled from the spec: the encoder is not in the package. `msg_id` and
`timestamp` are always written, `parent_msg_id` and `sync` only when not empty. -/
def encodeHeader (h : MessageHeader) : WireHeader :=
  { msg_id := h.ID
    parent_msg_id := omitEmptyString h.ParentID
    timestamp := h.Timestamp
    sync := omitFalse h.Sync }

/-- Modelled from the spec: the encoder is not in the package. A route whose four
fields are empty is dropped as a whole; otherwise each field is written only when
not empty. -/
def encodeRoute (r : MessageRoute) : Option WireRoute :=
  if r = {} then none
  else some
    { source := omitEmptyString r.Source
      group := omitEmptyString r.Group
      operation := omitEmptyString r.Operation
      resource := omitEmptyString r.Resource }

/-- Modelled from the spec: the encoder is not in the package. Encoding of an
envelope to its wire record; the content is always written, as it is. -/
def encode {α : Type} (m : Message α) : WireMessage α :=
  { header := encodeHeader m.Header
    route := encodeRoute m.Router
    content := m.Content }

/-- Modelled from the spec: the decoder is not in the package. A field absent
from the wire record is read as the zero value of its type. -/
def decodeHeader (h : WireHeader) : MessageHeader :=
  { ID := h.msg_id
    ParentID := h.parent_msg_id.getD ""
    Timestamp := h.timestamp
    Sync := h.sync.getD false }

/-- Modelled from the spec: the decoder is not in the package. An absent route is
read as the zero route, an absent route field as the empty string. -/
def decodeRoute (r : Option WireRoute) : MessageRoute :=
  match r with
  | none => {}
  | some x =>
    { Source := x.source.getD ""
      Group := x.group.getD ""
      Operation := x.operation.getD ""
      Resource := x.resource.getD "" }

/-- Modelled from the spec: the decoder is not in the package. Decoding of a wire
record to an envelope. -/
def decode {α : Type} (x : WireMessage α) : Message α :=
  { Header := decodeHeader x.header
    Router := decodeRoute x.route
    Content := x.content }

/-! ## Client runs

A client of the package performs calls one after the other, threading the world.
`Call` lists the operations that draw an identifier from the generator. -/

/-- One call of an operation of the package that generates an identifier,
together with its arguments (receiver first for the methods). -/
inductive Call (α : Type) where
  | newMessage (parentId : String) : Call α
  | updateID (msg : Message α) : Call α
  | clone (msg message : Message α) : Call α
  | newRespByMessage (msg message : Message α) (content : Payload α) : Call α
  | newErrorMessage (message : Message α) (errContent : String) : Call α

/-- Perform one call: the message it returns and the world after it. -/
def Call.exec {α : Type} (w : World) : Call α → Message α × World
  | Call.newMessage parentId => NewMessage w parentId
  | Call.updateID msg => msg.UpdateID w
  | Call.clone msg message => msg.Clone w message
  | Call.newRespByMessage msg message content => msg.NewRespByMessage w message content
  | Call.newErrorMessage message errContent => NewErrorMessage w message errContent

/-- Perform the calls in order: the messages they return, oldest first, and the
world after the last call. -/
def run {α : Type} (w : World) : List (Call α) → List (Message α) × World
  | [] => ([], w)
  | c :: cs => ((c.exec w).1 :: (run (c.exec w).2 cs).1, (run (c.exec w).2 cs).2)

/-! ## Concrete data used to instantiate the theorems -/

/-- Payloads of the examples: records of named string fields. -/
abbrev Rec : Type := List (String × String)

/-- A world at its start: call `k` of the generator returns `k + 1` letters `u`,
call `k` of the clock returns a reading `k` milliseconds and 789 ns after
1700000000123 ms. -/
def startWorld : World where
  uuid := fun k => String.mk (List.replicate (k + 1) 'u')
  unixNano := fun k => 1700000000123000789 + 1000000 * (k : Int)
  uuidCalls := 0
  clockCalls := 0

/-- Envelope A of the scenarios: a fresh root message routed from "edgehub" to
group "edged", asking to insert a pod. -/
def scenarioA : Message Rec × World :=
  let n : Message Rec × World := NewMessage startWorld ""
  ((n.1.BuildRouter "edgehub" "edged" ResourceTypePod InsertOperation).FillBody
      (Payload.other [("name", "pod-1")]), n.2)

/-- Response B of the scenarios, derived from envelope A with payload status ok. -/
def scenarioB : Message Rec × World :=
  scenarioA.1.NewRespByMessage scenarioA.2 scenarioA.1 (Payload.other [("status", "ok")])

/-- Error envelope C of the scenarios, derived from envelope A. -/
def scenarioC : Message Rec × World :=
  NewErrorMessage scenarioA.2 scenarioA.1 "not found"

/-- Envelope A after the external synchronous-send helper has set its flag. -/
def scenarioSync : Message Rec :=
  { scenarioA.1 with Header := { scenarioA.1.Header with Sync := true } }

/-- A message composed by hand, as `NewRawMessage().BuildHeader().BuildRouter()`,
whose id "u" was chosen by the caller and not drawn from the generator. -/
def handBuilt : Message Rec :=
  ((NewRawMessage : Message Rec).BuildHeader "u" "" 1700000000000).BuildRouter
    "edgehub" "edged" ResourceTypePod InsertOperation

/-- A memory holding envelope A at address 0 and the same envelope with its sync
flag set at address 1. -/
def scenarioMem : Mem Rec := { cells := [scenarioA.1, scenarioSync] }

/-- A short client run from `startWorld`: create A, clone it, answer it, report an
error on it, then regenerate the id of A. -/
def scenarioCalls : List (Call Rec) :=
  [Call.newMessage "",
   Call.clone scenarioA.1 scenarioA.1,
   Call.newRespByMessage scenarioA.1 scenarioA.1 (Payload.other [("status", "ok")]),
   Call.newErrorMessage scenarioA.1 "not found",
   Call.updateID scenarioA.1]

/-! ## Theorems -/

section Theorems

variable {α : Type}

/-! ### The generator along a run -/

theorem World.mem_issued (w : World) (t : String) :
    t ∈ w.issued ↔ ∃ j, j < w.uuidCalls ∧ w.uuid j = t := by
  simp [World.issued]

/-- A token returned from now on differs from every token issued so far. -/
theorem World.FreshTokens.not_issued {w : World} (h : w.FreshTokens) {k : Nat}
    (hk : w.uuidCalls ≤ k) : ∀ t ∈ w.issued, w.uuid k ≠ t := by
  intro t ht
  obtain ⟨j, hj, rfl⟩ := (w.mem_issued t).1 ht
  exact h k hk j (by omega)

/-- Each identifier-drawing call stores the next token of the generator in the
message it returns, and advances the generator by exactly one call. -/
theorem Call.exec_spec (w : World) (c : Call α) :
    (c.exec w).1.GetID = w.uuid w.uuidCalls ∧ (c.exec w).2.uuid = w.uuid ∧
    (c.exec w).2.uuidCalls = w.uuidCalls + 1 := by
  cases c <;> exact ⟨rfl, rfl, rfl⟩

theorem run_world (w : World) (cs : List (Call α)) :
    (run w cs).2.uuid = w.uuid ∧ (run w cs).2.uuidCalls = w.uuidCalls + cs.length := by
  induction cs generalizing w with
  | nil => exact ⟨rfl, rfl⟩
  | cons c cs ih =>
    obtain ⟨-, hu, hn⟩ := Call.exec_spec w c
    obtain ⟨h1, h2⟩ := ih (c.exec w).2
    refine ⟨?_, ?_⟩
    · simpa [run, hu] using h1
    · simp only [run, h2, hn, List.length_cons]; omega

/-- The ids of the messages a run returns are tokens the run has drawn. -/
theorem run_ids (w : World) (cs : List (Call α)) :
    ∀ m ∈ (run w cs).1, ∃ j, w.uuidCalls ≤ j ∧ j < w.uuidCalls + cs.length ∧
      m.GetID = w.uuid j := by
  induction cs generalizing w with
  | nil => intro m hm; simp [run] at hm
  | cons c cs ih =>
    intro m hm
    obtain ⟨hid, hu, hn⟩ := Call.exec_spec w c
    simp only [run, List.mem_cons] at hm
    rcases hm with rfl | hm
    · exact ⟨w.uuidCalls, le_refl _, by simp, hid⟩
    · obtain ⟨j, h1, h2, h3⟩ := ih (c.exec w).2 m hm
      rw [hn] at h1 h2
      rw [hu] at h3
      exact ⟨j, by omega, by simp only [List.length_cons]; omega, h3⟩

theorem run_ids_issued (w : World) (cs : List (Call α)) :
    ∀ m ∈ (run w cs).1, m.GetID ∈ (run w cs).2.issued := by
  intro m hm
  obtain ⟨j, -, h2, h3⟩ := run_ids w cs m hm
  obtain ⟨hu, hn⟩ := run_world w cs
  exact ((run w cs).2.mem_issued _).2 ⟨j, by omega, by rw [hu, h3]⟩

theorem run_fresh (w : World) (cs : List (Call α)) (h : w.FreshTokens) :
    (run w cs).2.FreshTokens := by
  obtain ⟨hu, hn⟩ := run_world w cs
  intro k hk j hj
  rw [hu]
  exact h k (by omega) j hj

/-! ### The generator of the examples -/

theorem tally_ne {j k : Nat} (h : j ≠ k) :
    String.mk (List.replicate (k + 1) 'u') ≠ String.mk (List.replicate (j + 1) 'u') := by
  intro he
  have hl := congrArg String.length he
  simp [String.length] at hl
  exact h hl.symm

theorem fresh_of_tally (w : World) (h : w.uuid = startWorld.uuid) : w.FreshTokens := by
  intro k _ j hj
  rw [h]
  exact tally_ne (Nat.ne_of_lt hj)

theorem nonEmpty_of_tally (w : World) (h : w.uuid = startWorld.uuid) : w.NonEmptyTokens := by
  intro k _ he
  rw [h] at he
  have hl := congrArg String.length he
  simp [startWorld, String.length] at hl

/-! ### Claims -/

/-- C1. For every received message `E` and payload `C`, the response
`NewRespByMessage(E, C)` has parentId equal to the id of `E`, operation equal to
the constant "response" whatever the operation of `E` was, and source and group
equal to those of `E`. -/
theorem NewRespByMessage_correlates (w : World) (R E : Message α) (C : Payload α) :
    (R.NewRespByMessage w E C).1.GetParentID = E.GetID ∧
    (R.NewRespByMessage w E C).1.GetOperation = "response" ∧
    (R.NewRespByMessage w E C).1.GetSource = E.GetSource ∧
    (R.NewRespByMessage w E C).1.GetGroup = E.GetGroup := by
  refine ⟨rfl, rfl, rfl, rfl⟩

/-- C2. For every message `E` and error text `T`, `NewErrorMessage(E, T)` has
parentId equal to the parentId of `E` (not its id), operation equal to the
constant "error", resource equal to the resource of `E` and content equal to `T`;
in particular a root message, that is `E` with an empty parentId whatever its id,
gives an error message whose parentId is empty. -/
theorem NewErrorMessage_fields (w : World) (E : Message α) (T : String) :
    (NewErrorMessage w E T).1.GetParentID = E.GetParentID ∧
    (NewErrorMessage w E T).1.GetOperation = "error" ∧
    (NewErrorMessage w E T).1.GetResource = E.GetResource ∧
    (NewErrorMessage w E T).1.GetContent = Payload.text T ∧
    (NewErrorMessage w (E.BuildHeader E.GetID "" E.GetTimestamp) T).1.GetParentID = "" := by
  refine ⟨rfl, rfl, rfl, rfl, rfl⟩

/-- C3 as stated fails. The generator of `startWorld` never returns a token it
issued before, and nothing has been issued yet; the message `handBuilt` carries
the id "u", set by `BuildHeader`. Its clone draws the token "u" and so has the
same id as the original. -/
theorem Clone_id_equals_hand_set_id :
    startWorld.FreshTokens ∧ startWorld.issued = [] ∧
    (handBuilt.Clone startWorld handBuilt).1.GetID = handBuilt.GetID :=
  ⟨fresh_of_tally _ rfl, by decide, by decide⟩

/-- C3, amended. For every message `E`, `Clone(E)` has the parentId, timestamp,
route (source, group, resource, operation) and content of `E`, and so has a
second clone of the same `E` made right after the first, whose route and content
are therefore also those of the first clone. The id of a clone is the token the
generator returns, so it differs from the id of `E` exactly when that token is
not the id of `E`. Assuming the generator returns tokens it has not issued
before, the two clones have ids distinct from each other; both ids differ from
the id of `E` when the generator does not return the id of `E`, in particular
when the id of `E` is one of the tokens issued earlier. The receivers `R` and
`R2` of the two calls are arbitrary. -/
theorem Clone_same_rest_fresh_id (w : World) (R R2 E : Message α) :
    (R.Clone w E).1.GetParentID = E.GetParentID ∧
    (R.Clone w E).1.GetTimestamp = E.GetTimestamp ∧
    (R.Clone w E).1.Router = E.Router ∧
    (R.Clone w E).1.GetContent = E.GetContent ∧
    (R2.Clone (R.Clone w E).2 E).1.GetParentID = E.GetParentID ∧
    (R2.Clone (R.Clone w E).2 E).1.GetTimestamp = E.GetTimestamp ∧
    (R2.Clone (R.Clone w E).2 E).1.Router = E.Router ∧
    (R2.Clone (R.Clone w E).2 E).1.Router = (R.Clone w E).1.Router ∧
    (R2.Clone (R.Clone w E).2 E).1.GetContent = E.GetContent ∧
    (R2.Clone (R.Clone w E).2 E).1.GetContent = (R.Clone w E).1.GetContent ∧
    ((R.Clone w E).1.GetID ≠ E.GetID ↔ w.newV4String.1 ≠ E.GetID) ∧
    ((R2.Clone (R.Clone w E).2 E).1.GetID ≠ E.GetID ↔
      (R.Clone w E).2.newV4String.1 ≠ E.GetID) ∧
    (w.FreshTokens →
      (R2.Clone (R.Clone w E).2 E).1.GetID ≠ (R.Clone w E).1.GetID) ∧
    ((∀ k, w.uuidCalls ≤ k → w.uuid k ≠ E.GetID) →
      (R.Clone w E).1.GetID ≠ E.GetID ∧
      (R2.Clone (R.Clone w E).2 E).1.GetID ≠ E.GetID) ∧
    (w.FreshTokens → E.GetID ∈ w.issued →
      (R.Clone w E).1.GetID ≠ E.GetID ∧
      (R2.Clone (R.Clone w E).2 E).1.GetID ≠ E.GetID) := by
  have h1 : (R.Clone w E).1.GetID = w.uuid w.uuidCalls := rfl
  have h2 : (R2.Clone (R.Clone w E).2 E).1.GetID = w.uuid (w.uuidCalls + 1) := rfl
  refine ⟨rfl, rfl, rfl, rfl, rfl, rfl, rfl, rfl, rfl, rfl, Iff.rfl, Iff.rfl, ?_, ?_, ?_⟩
  · intro hgen
    rw [h1, h2]
    exact hgen _ (by omega) _ (by omega)
  · intro hE
    rw [h1, h2]
    exact ⟨hE _ (le_refl _), hE _ (by omega)⟩
  · intro hgen hE
    rw [h1, h2]
    exact ⟨hgen.not_issued (le_refl _) _ hE, hgen.not_issued (by omega) _ hE⟩

/-- Instance of C3, amended: envelope A of the scenarios, cloned twice right after
its creation, in a world whose generator never repeats a token; and the message
`handBuilt`, whose id "u" the generator no longer returns once A exists. -/
theorem Clone_same_rest_fresh_id_witness :
    scenarioA.2.FreshTokens ∧ scenarioA.1.GetID ∈ scenarioA.2.issued ∧
    (scenarioA.1.Clone scenarioA.2 scenarioA.1).1.GetID ≠ scenarioA.1.GetID ∧
    (scenarioA.1.Clone (scenarioA.1.Clone scenarioA.2 scenarioA.1).2 scenarioA.1).1.GetID ≠
      scenarioA.1.GetID ∧
    (scenarioA.1.Clone (scenarioA.1.Clone scenarioA.2 scenarioA.1).2 scenarioA.1).1.GetID ≠
      (scenarioA.1.Clone scenarioA.2 scenarioA.1).1.GetID ∧
    (scenarioA.1.Clone scenarioA.2 scenarioA.1).1.Router = scenarioA.1.Router ∧
    (handBuilt.Clone scenarioA.2 handBuilt).1.GetID ≠ handBuilt.GetID :=
  have h := Clone_same_rest_fresh_id scenarioA.2 scenarioA.1 scenarioA.1 scenarioA.1
  have g := Clone_same_rest_fresh_id scenarioA.2 handBuilt handBuilt handBuilt
  have hf : scenarioA.2.FreshTokens := fresh_of_tally _ rfl
  ⟨hf, by decide, (h.2.2.2.2.2.2.2.2.2.2.2.2.2.2 hf (by decide)).1,
    (h.2.2.2.2.2.2.2.2.2.2.2.2.2.2 hf (by decide)).2,
    h.2.2.2.2.2.2.2.2.2.2.2.2.1 hf, h.2.2.1,
    (g.2.2.2.2.2.2.2.2.2.2.2.2.2.2 hf (by decide)).1⟩

/-- C4, evaluated where it fails. Envelope A with its sync flag set is cloned: the
clone has sync false although the original has sync true, so `Clone` does not
agree with the original on every field other than the id. On parentId,
timestamp, source, group, resource, operation and content the clone does agree. -/
theorem Clone_resets_sync :
    scenarioSync.IsSync = true ∧
    (scenarioA.1.Clone scenarioA.2 scenarioSync).1.IsSync = false ∧
    (scenarioA.1.Clone scenarioA.2 scenarioSync).1.Header.Sync ≠ scenarioSync.Header.Sync ∧
    (scenarioA.1.Clone scenarioA.2 scenarioSync).1.GetParentID = scenarioSync.GetParentID ∧
    (scenarioA.1.Clone scenarioA.2 scenarioSync).1.GetTimestamp = scenarioSync.GetTimestamp ∧
    (scenarioA.1.Clone scenarioA.2 scenarioSync).1.Router = scenarioSync.Router ∧
    (scenarioA.1.Clone scenarioA.2 scenarioSync).1.GetContent = scenarioSync.GetContent := by
  decide

/-- C5 as stated fails. The generator of `startWorld` returns non-empty tokens
and never repeats one. A parent is supplied, the non-empty string "u", and the
message made by `NewMessage("u")` has id "u", equal to its parentId; the same
happens after the run `scenarioCalls` with the parent id "uuuuuu". -/
theorem NewMessage_id_equals_supplied_parent :
    startWorld.FreshTokens ∧ startWorld.NonEmptyTokens ∧
    (NewMessage startWorld "u" : Message Rec × World).1.GetParentID ≠ "" ∧
    (NewMessage startWorld "u" : Message Rec × World).1.GetID =
      (NewMessage startWorld "u" : Message Rec × World).1.GetParentID ∧
    (NewMessage (run startWorld scenarioCalls).2 "uuuuuu" : Message Rec × World).1.GetID =
      (NewMessage (run startWorld scenarioCalls).2 "uuuuuu" :
        Message Rec × World).1.GetParentID :=
  ⟨fresh_of_tally _ rfl, nonEmpty_of_tally _ rfl, by decide, by decide, by decide⟩

/-- C5, amended. With a generator whose tokens are non-empty and never repeat,
after any run of calls to `NewMessage`, `UpdateID`, `Clone`, `NewRespByMessage`
and `NewErrorMessage`, the message made by `NewMessage(parentId)` has a non-empty
id, distinct from every token issued earlier and from the id of every message
the run returned. Hence it is distinct from `parentId` when no parent is
supplied, when the supplied parent id is one of the ids issued earlier, and when
it is the id of a message the run returned. For an arbitrary supplied string the
id differs from `parentId` exactly when the token the generator returns is not
that string. -/
theorem NewMessage_id_unique_in_run (w : World) (calls : List (Call α)) (parentId : String)
    (hgen : w.FreshTokens) (hne : w.NonEmptyTokens) :
    (NewMessage (run w calls).2 parentId : Message α × World).1.GetID ≠ "" ∧
    (∀ t ∈ (run w calls).2.issued,
      (NewMessage (run w calls).2 parentId : Message α × World).1.GetID ≠ t) ∧
    (∀ m ∈ (run w calls).1,
      (NewMessage (run w calls).2 parentId : Message α × World).1.GetID ≠ m.GetID) ∧
    (parentId = "" ∨ parentId ∈ (run w calls).2.issued →
      (NewMessage (run w calls).2 parentId : Message α × World).1.GetID ≠ parentId) ∧
    (∀ m ∈ (run w calls).1, parentId = m.GetID →
      (NewMessage (run w calls).2 parentId : Message α × World).1.GetID ≠ parentId) ∧
    ((NewMessage (run w calls).2 parentId : Message α × World).1.GetID ≠ parentId ↔
      (run w calls).2.newV4String.1 ≠ parentId) := by
  have hid : (NewMessage (run w calls).2 parentId : Message α × World).1.GetID =
      (run w calls).2.uuid (run w calls).2.uuidCalls := rfl
  have hall : ∀ t ∈ (run w calls).2.issued,
      (NewMessage (run w calls).2 parentId : Message α × World).1.GetID ≠ t := by
    intro t ht
    rw [hid]
    exact (run_fresh w calls hgen).not_issued (le_refl _) t ht
  have hnon : (NewMessage (run w calls).2 parentId : Message α × World).1.GetID ≠ "" := by
    obtain ⟨hu, hn⟩ := run_world w calls
    rw [hid, hu]
    exact hne _ (by omega)
  refine ⟨hnon, hall, fun m hm => hall _ (run_ids_issued w calls m hm), ?_, ?_, Iff.rfl⟩
  · rintro (hp | hp)
    · rw [hp]; exact hnon
    · exact hall _ hp
  · intro m hm hp
    rw [hp]
    exact hall _ (run_ids_issued w calls m hm)

/-- Instance of C5, amended: after the run `scenarioCalls`, a fresh message whose
parent is envelope A (id "u"). -/
theorem NewMessage_id_unique_in_run_witness :
    startWorld.FreshTokens ∧ startWorld.NonEmptyTokens ∧
    "u" ∈ (run startWorld scenarioCalls).2.issued ∧
    (NewMessage (run startWorld scenarioCalls).2 "u" : Message Rec × World).1.GetID ≠ "" ∧
    (NewMessage (run startWorld scenarioCalls).2 "u" : Message Rec × World).1.GetID ≠ "u" ∧
    (∀ m ∈ (run startWorld scenarioCalls).1,
      (NewMessage (run startWorld scenarioCalls).2 "u" : Message Rec × World).1.GetID ≠
        m.GetID) :=
  have h := NewMessage_id_unique_in_run startWorld scenarioCalls "u"
    (fresh_of_tally _ rfl) (nonEmpty_of_tally _ rfl)
  ⟨fresh_of_tally _ rfl, nonEmpty_of_tally _ rfl, by decide, h.1,
    h.2.2.2.1 (Or.inr (by decide)), h.2.2.1⟩

/-- C6. For every message `E` and payload `C`, `NewRespByMessage(E, C)` has
resource equal to the resource of `E`, content equal to `C`, and a timestamp equal
to the reading the clock returns during the derivation, in milliseconds; the clock
is read exactly once, and the result is the same whatever timestamp `E` carries. -/
theorem NewRespByMessage_resource_content_time (w : World) (R E : Message α)
    (C : Payload α) (ts : Int) :
    (R.NewRespByMessage w E C).1.GetResource = E.GetResource ∧
    (R.NewRespByMessage w E C).1.GetContent = C ∧
    (R.NewRespByMessage w E C).1.GetTimestamp = Int.tdiv (w.unixNano w.clockCalls) 1000000 ∧
    (R.NewRespByMessage w E C).2.clockCalls = w.clockCalls + 1 ∧
    R.NewRespByMessage w { E with Header := { E.Header with Timestamp := ts } } C =
      R.NewRespByMessage w E C := by
  refine ⟨rfl, rfl, rfl, rfl, rfl⟩

/-- C7 as stated fails. The response derived from envelope A (source "edgehub",
group "edged") is not addressed back: its group is not the source of A and its
source is not the group of A; its source and group are copies of those of A. The
error message derived from A is not addressed back either. -/
theorem reply_addressing_not_reversed :
    scenarioB.1.GetGroup ≠ scenarioA.1.GetSource ∧
    scenarioB.1.GetSource ≠ scenarioA.1.GetGroup ∧
    scenarioB.1.GetSource = scenarioA.1.GetSource ∧
    scenarioB.1.GetGroup = scenarioA.1.GetGroup ∧
    scenarioC.1.GetGroup ≠ scenarioA.1.GetSource ∧
    scenarioC.1.GetSource ≠ scenarioA.1.GetGroup := by
  decide

/-- C7, amended. Deriving a response does not reverse addressing: for every
received message `E`, the response derived from `E` carries the source and the
group of `E` unchanged, whatever they are; it is a copy of the addressing of `E`
and, whenever the source and the group of `E` differ, not its reverse. -/
theorem response_addressing_copied (w : World) (R E : Message α) (C : Payload α)
    (source group : String) :
    (R.NewRespByMessage w E C).1.GetSource = E.GetSource ∧
    (R.NewRespByMessage w E C).1.GetGroup = E.GetGroup ∧
    (R.NewRespByMessage w (E.SetRoute source group) C).1.GetSource = source ∧
    (R.NewRespByMessage w (E.SetRoute source group) C).1.GetGroup = group ∧
    (E.GetSource ≠ E.GetGroup →
      (R.NewRespByMessage w E C).1.GetSource ≠ E.GetGroup ∧
      (R.NewRespByMessage w E C).1.GetGroup ≠ E.GetSource) := by
  refine ⟨rfl, rfl, rfl, rfl, fun h => ⟨h, fun g => h g.symm⟩⟩

/-- Instance of C7, amended: the response to envelope A, whose source "edgehub"
differs from its group "edged". -/
theorem response_addressing_copied_witness :
    scenarioA.1.GetSource ≠ scenarioA.1.GetGroup ∧
    scenarioB.1.GetSource = "edgehub" ∧ scenarioB.1.GetGroup = "edged" ∧
    scenarioB.1.GetSource ≠ scenarioA.1.GetGroup ∧
    scenarioB.1.GetGroup ≠ scenarioA.1.GetSource :=
  have h := response_addressing_copied scenarioA.2 scenarioA.1 scenarioA.1
    (Payload.other [("status", "ok")]) "edgehub" "edged"
  ⟨by decide, h.2.2.1, h.2.2.2.1, (h.2.2.2.2 (by decide)).1, (h.2.2.2.2 (by decide)).2⟩

/-- C8. For every parent id `p`, `NewMessage(p)` is the empty message
`NewRawMessage()` with only its header built from the generated id, `p` and the
clock reading in milliseconds: its parentId is `p`, its timestamp is the clock
reading, its source, group, resource and operation are empty, its content is nil
and its sync flag is false. `NewRawMessage()` itself has every header field and
every route field at its zero value and no content. -/
theorem NewMessage_is_raw_with_header (w : World) (p : String) :
    (NewMessage w p : Message α × World).1 =
      (NewRawMessage : Message α).BuildHeader (w.uuid w.uuidCalls) p
        (Int.tdiv (w.unixNano w.clockCalls) 1000000) ∧
    (NewMessage w p : Message α × World).1.GetID = w.newV4String.1 ∧
    (NewMessage w p : Message α × World).1.GetParentID = p ∧
    (NewMessage w p : Message α × World).1.GetTimestamp =
      Int.tdiv w.nowUnixNano.1 1000000 ∧
    (NewMessage w p : Message α × World).1.GetSource = "" ∧
    (NewMessage w p : Message α × World).1.GetGroup = "" ∧
    (NewMessage w p : Message α × World).1.GetResource = "" ∧
    (NewMessage w p : Message α × World).1.GetOperation = "" ∧
    (NewMessage w p : Message α × World).1.GetContent = Payload.nil ∧
    (NewMessage w p : Message α × World).1.IsSync = false ∧
    (NewRawMessage : Message α).GetID = "" ∧
    (NewRawMessage : Message α).GetParentID = "" ∧
    (NewRawMessage : Message α).GetTimestamp = 0 ∧
    (NewRawMessage : Message α).IsSync = false ∧
    (NewRawMessage : Message α).GetSource = "" ∧
    (NewRawMessage : Message α).GetGroup = "" ∧
    (NewRawMessage : Message α).GetResource = "" ∧
    (NewRawMessage : Message α).GetOperation = "" ∧
    (NewRawMessage : Message α).GetContent = Payload.nil := by
  refine ⟨rfl, rfl, rfl, rfl, rfl, rfl, rfl, rfl, rfl, rfl, rfl, rfl, rfl, rfl, rfl, rfl,
    rfl, rfl, rfl⟩

/-- C9. For every message `M`, `UpdateID` replaces the header id with the token
the generator returns and leaves parentId, timestamp, sync, source, group,
resource, operation and content exactly as they were. -/
theorem UpdateID_only_id (w : World) (M : Message α) :
    (M.UpdateID w).1.GetID = w.newV4String.1 ∧
    (M.UpdateID w).1.GetParentID = M.GetParentID ∧
    (M.UpdateID w).1.GetTimestamp = M.GetTimestamp ∧
    (M.UpdateID w).1.IsSync = M.IsSync ∧
    (M.UpdateID w).1.GetSource = M.GetSource ∧
    (M.UpdateID w).1.GetGroup = M.GetGroup ∧
    (M.UpdateID w).1.GetResource = M.GetResource ∧
    (M.UpdateID w).1.GetOperation = M.GetOperation ∧
    (M.UpdateID w).1.GetContent = M.GetContent := by
  refine ⟨rfl, rfl, rfl, rfl, rfl, rfl, rfl, rfl, rfl⟩

/-- C10. For every message `M` and all strings `source`, `group`, `res`, `opr`
(none of them validated, so any operation string is stored verbatim),
`BuildRouter(source, group, res, opr)` gives the same message as `SetRoute(source,
group)` followed by `SetResourceOperation(res, opr)`, and the same as these two
applied in the opposite order; afterwards `GetSource`, `GetGroup`, `GetResource`
and `GetOperation` return exactly `source`, `group`, `res` and `opr`. -/
theorem BuildRouter_eq_compositions (M : Message α) (source group res opr : String) :
    M.BuildRouter source group res opr =
      (M.SetRoute source group).SetResourceOperation res opr ∧
    M.BuildRouter source group res opr =
      (M.SetResourceOperation res opr).SetRoute source group ∧
    (M.BuildRouter source group res opr).GetSource = source ∧
    (M.BuildRouter source group res opr).GetGroup = group ∧
    (M.BuildRouter source group res opr).GetResource = res ∧
    (M.BuildRouter source group res opr).GetOperation = opr := by
  refine ⟨rfl, rfl, rfl, rfl, rfl, rfl⟩

/-- C11. For every message `M`, `SetRoute(source, group)` sets source and group
and leaves resource, operation, the whole header and the content unchanged;
`SetResourceOperation(res, opr)` sets resource and operation and leaves source,
group, the whole header and the content unchanged. -/
theorem SetRoute_SetResourceOperation_frame (M : Message α) (source group res opr : String) :
    (M.SetRoute source group).GetSource = source ∧
    (M.SetRoute source group).GetGroup = group ∧
    (M.SetRoute source group).GetResource = M.GetResource ∧
    (M.SetRoute source group).GetOperation = M.GetOperation ∧
    (M.SetRoute source group).Header = M.Header ∧
    (M.SetRoute source group).GetContent = M.GetContent ∧
    (M.SetResourceOperation res opr).GetResource = res ∧
    (M.SetResourceOperation res opr).GetOperation = opr ∧
    (M.SetResourceOperation res opr).GetSource = M.GetSource ∧
    (M.SetResourceOperation res opr).GetGroup = M.GetGroup ∧
    (M.SetResourceOperation res opr).Header = M.Header ∧
    (M.SetResourceOperation res opr).GetContent = M.GetContent := by
  refine ⟨rfl, rfl, rfl, rfl, rfl, rfl, rfl, rfl, rfl, rfl, rfl, rfl⟩

/-- C12. For every message `M` and every id, parent id and timestamp, none of
them validated, `BuildHeader(id, parentID, timestamp)` makes `GetID`,
`GetParentID` and `GetTimestamp` return exactly those three values and leaves the
sync flag, the route and the content unchanged; the empty string is accepted as
an id like any other. -/
theorem BuildHeader_sets_three (M : Message α) (ID parentID : String) (timestamp : Int) :
    (M.BuildHeader ID parentID timestamp).GetID = ID ∧
    (M.BuildHeader ID parentID timestamp).GetParentID = parentID ∧
    (M.BuildHeader ID parentID timestamp).GetTimestamp = timestamp ∧
    (M.BuildHeader ID parentID timestamp).IsSync = M.IsSync ∧
    (M.BuildHeader ID parentID timestamp).Router = M.Router ∧
    (M.BuildHeader ID parentID timestamp).GetContent = M.GetContent ∧
    (M.BuildHeader "" parentID timestamp).GetID = "" := by
  refine ⟨rfl, rfl, rfl, rfl, rfl, rfl, rfl⟩

/-- C13. For every message `M` and payloads `c1`, `c2`, `FillBody` replaces any
previous content: `GetContent` after `FillBody(c2)` is `c2`, `FillBody(c1)`
followed by `FillBody(c2)` gives the same message as `FillBody(c2)` alone, and
`FillBody` leaves the header and the route unchanged. -/
theorem FillBody_replaces (M : Message α) (c1 c2 : Payload α) :
    (M.FillBody c2).GetContent = c2 ∧
    ((M.FillBody c1).FillBody c2).GetContent = c2 ∧
    (M.FillBody c1).FillBody c2 = M.FillBody c2 ∧
    (M.FillBody c2).Header = M.Header ∧
    (M.FillBody c2).Router = M.Router := by
  refine ⟨rfl, rfl, rfl, rfl, rfl⟩

/-- Go division of a non-negative `int64` by `1e6` is floor division. -/
theorem tdiv_million_of_nonneg {n : Int} (hn : 0 ≤ n) :
    Int.tdiv n 1000000 = n / 1000000 :=
  Int.tdiv_eq_ediv hn (by decide)

/-- Go division of a negative `int64` by `1e6` rounds toward zero. -/
theorem tdiv_million_of_neg {n : Int} (hn : n < 0) :
    Int.tdiv n 1000000 = -((-n) / 1000000) := by
  have h : Int.tdiv (-n) 1000000 = (-n) / 1000000 :=
    Int.tdiv_eq_ediv (by omega) (by decide)
  rw [← h, Int.neg_tdiv, neg_neg]

/-- C14. The timestamp stamped by `NewMessage` is the nanosecond reading `n` of the
clock divided by 1,000,000 with Go integer division. For every reading `n ≥ 0`
the timestamp `t` is the whole number of milliseconds in `n`:
`t * 1000000 ≤ n < (t + 1) * 1000000`. For every reading in the signed 64-bit
range the timestamp is in the signed 64-bit range. -/
theorem NewMessage_timestamp_millis (w : World) (p : String) :
    (NewMessage w p : Message α × World).1.GetTimestamp =
      Int.tdiv (w.unixNano w.clockCalls) 1000000 ∧
    (0 ≤ w.unixNano w.clockCalls →
      (NewMessage w p : Message α × World).1.GetTimestamp * 1000000 ≤
        w.unixNano w.clockCalls ∧
      w.unixNano w.clockCalls <
        ((NewMessage w p : Message α × World).1.GetTimestamp + 1) * 1000000) ∧
    (-9223372036854775808 ≤ w.unixNano w.clockCalls →
      w.unixNano w.clockCalls ≤ 9223372036854775807 →
      -9223372036854775808 ≤ (NewMessage w p : Message α × World).1.GetTimestamp ∧
      (NewMessage w p : Message α × World).1.GetTimestamp ≤ 9223372036854775807) := by
  have ht : (NewMessage w p : Message α × World).1.GetTimestamp =
      Int.tdiv (w.unixNano w.clockCalls) 1000000 := rfl
  rw [ht]
  refine ⟨rfl, ?_, ?_⟩
  · intro hn
    rw [tdiv_million_of_nonneg hn]
    omega
  · intro hlo hhi
    rcases Int.lt_or_le (w.unixNano w.clockCalls) 0 with hneg | hpos
    · rw [tdiv_million_of_neg hneg]
      omega
    · rw [tdiv_million_of_nonneg hpos]
      omega

/-- Instance of C14: the first message made in `startWorld`, whose clock reads
1700000000123000789 ns, is stamped 1700000000123 ms. -/
theorem NewMessage_timestamp_millis_witness :
    (0 : Int) ≤ startWorld.unixNano startWorld.clockCalls ∧
    (NewMessage startWorld "" : Message Rec × World).1.GetTimestamp = 1700000000123 ∧
    (NewMessage startWorld "" : Message Rec × World).1.GetTimestamp * 1000000 ≤
      startWorld.unixNano startWorld.clockCalls ∧
    startWorld.unixNano startWorld.clockCalls <
      ((NewMessage startWorld "" : Message Rec × World).1.GetTimestamp + 1) * 1000000 ∧
    (NewMessage startWorld "" : Message Rec × World).1.GetTimestamp ≤ 9223372036854775807 :=
  have h := @NewMessage_timestamp_millis Rec startWorld ""
  ⟨by decide, by decide, (h.2.1 (by decide)).1, (h.2.1 (by decide)).2,
    (h.2.2 (by decide) (by decide)).2⟩

/-- C16. For every message `E` and error text `T`, the error message
`NewErrorMessage(E, T)` carries no addressing: its source and its group are the
empty string, and the whole result is the same whatever source and group `E`
has; `NewRespByMessage`, on the contrary, copies the source and group of `E`. -/
theorem NewErrorMessage_no_addressing (w : World) (R E : Message α) (T : String)
    (C : Payload α) (source group : String) :
    (NewErrorMessage w E T).1.GetSource = "" ∧
    (NewErrorMessage w E T).1.GetGroup = "" ∧
    NewErrorMessage w (E.SetRoute source group) T = NewErrorMessage w E T ∧
    (R.NewRespByMessage w (E.SetRoute source group) C).1.GetSource = source ∧
    (R.NewRespByMessage w (E.SetRoute source group) C).1.GetGroup = group := by
  refine ⟨rfl, rfl, rfl, rfl, rfl⟩

/-- C17. No operation of the package sets the sync flag. The mutators
`BuildRouter`, `SetRoute`, `SetResourceOperation`, `UpdateID`, `BuildHeader` and
`FillBody` leave `IsSync` as it was; the messages produced by `NewRawMessage`,
`NewMessage`, `Clone`, `NewRespByMessage` and `NewErrorMessage` have `IsSync`
false, also when the message they are derived from has its sync flag set. -/
theorem sync_never_set (w : World) (R M E : Message α) (source group res opr ID parentID : String)
    (timestamp : Int) (C : Payload α) (T : String) :
    (M.BuildRouter source group res opr).IsSync = M.IsSync ∧
    (M.SetRoute source group).IsSync = M.IsSync ∧
    (M.SetResourceOperation res opr).IsSync = M.IsSync ∧
    (M.UpdateID w).1.IsSync = M.IsSync ∧
    (M.BuildHeader ID parentID timestamp).IsSync = M.IsSync ∧
    (M.FillBody C).IsSync = M.IsSync ∧
    (NewRawMessage : Message α).IsSync = false ∧
    (NewMessage w parentID : Message α × World).1.IsSync = false ∧
    (R.Clone w E).1.IsSync = false ∧
    (R.NewRespByMessage w E C).1.IsSync = false ∧
    (NewErrorMessage w E T).1.IsSync = false ∧
    (R.Clone w { E with Header := { E.Header with Sync := true } }).1.IsSync = false ∧
    (R.NewRespByMessage w { E with Header := { E.Header with Sync := true } } C).1.IsSync
      = false ∧
    (NewErrorMessage w { E with Header := { E.Header with Sync := true } } T).1.IsSync
      = false := by
  refine ⟨rfl, rfl, rfl, rfl, rfl, rfl, rfl, rfl, rfl, rfl, rfl, rfl, rfl, rfl⟩

/-- C19. An error message correlates to the parent of its original, so an error
derived from a response correlates to the original request: for every message
`E`, payload `C` and text `T`, `NewErrorMessage(NewRespByMessage(E, C), T)` has
parentId equal to the id of `E`, and for every `p`,
`NewErrorMessage(NewMessage(p), T)` has parentId equal to `p`. The error may be
derived in any later world `w2`, in particular right after the first call. -/
theorem NewErrorMessage_of_reply_parent (w w2 : World) (R E : Message α) (C : Payload α)
    (T p : String) :
    (NewErrorMessage w2 (R.NewRespByMessage w E C).1 T).1.GetParentID = E.GetID ∧
    (NewErrorMessage (R.NewRespByMessage w E C).2 (R.NewRespByMessage w E C).1 T).1.GetParentID
      = E.GetID ∧
    (NewErrorMessage w2 (NewMessage w p : Message α × World).1 T).1.GetParentID = p ∧
    (NewErrorMessage (NewMessage w p : Message α × World).2
      (NewMessage w p : Message α × World).1 T).1.GetParentID = p := by
  refine ⟨rfl, rfl, rfl, rfl⟩

/-! ### Pointers: what a derivation does to memory -/

theorem Mem.mutate_fresh (cells : List (Message α)) (x : Message α)
    (f : Message α → Message α) :
    Mem.mutate { cells := cells ++ [x] } (some cells.length) f =
      some (some cells.length, { cells := cells ++ [f x] }) := by
  simp [Mem.mutate]

/-- Allocating a cell leaves every message already in memory where it was. -/
theorem Mem.load_old (cells : List (Message α)) (x : Message α) (q : Ptr) (y : Message α)
    (h : Mem.load { cells := cells } q = some y) :
    Mem.load { cells := cells ++ [x] } q = some y := by
  cases q with
  | none => simp [Mem.load] at h
  | some a =>
    simp only [Mem.load] at h ⊢
    have hlt : a < cells.length := (List.getElem?_eq_some.1 h).1
    rw [List.getElem?_append_left hlt]
    exact h

theorem Mem.preserved_of_eq (h : Mem α) (r : Option (Ptr × Mem α × World)) (p : Ptr)
    (x : Message α) (w2 : World) (hr : r = some (p, { cells := h.cells ++ [x] }, w2)) :
    h.Preserved r :=
  ⟨p, { cells := h.cells ++ [x] }, w2, hr, fun q y hq => Mem.load_old h.cells x q y hq⟩

/-- On pointers, `NewMessage` allocates one cell holding the message that
`NewMessage` on values describes. -/
theorem Mem.NewMessage_eq (h : Mem α) (w : World) (p : String) :
    h.NewMessage w p = some (some h.cells.length,
      { cells := h.cells ++ [(model.NewMessage w p : Message α × World).1] },
      (model.NewMessage w p : Message α × World).2) := by
  simp [Mem.NewMessage, Mem.alloc, Mem.mutate_fresh, model.NewMessage]

theorem Mem.Clone_eq (h : Mem α) (w : World) (R E : Ptr) (m X : Message α)
    (hE : h.load E = some m) :
    h.Clone w R E = some (some h.cells.length,
      { cells := h.cells ++ [(X.Clone w m).1] }, (X.Clone w m).2) := by
  have hl : ∀ x, Mem.load { cells := h.cells ++ [x] } E = some m :=
    fun x => Mem.load_old h.cells x E m hE
  simp [Mem.Clone, Mem.NewRawMessage, Mem.alloc, Mem.GetParentID, Mem.GetTimestamp,
    Mem.GetSource, Mem.GetGroup, Mem.GetResource, Mem.GetOperation, Mem.GetContent,
    Mem.BuildHeader, Mem.BuildRouter, Mem.SetRoute, Mem.SetResourceOperation, Mem.FillBody,
    Mem.mutate_fresh, hl, Message.Clone, model.NewRawMessage, Message.BuildRouter]

theorem Mem.NewRespByMessage_eq (h : Mem α) (w : World) (R E : Ptr) (m X : Message α)
    (C : Payload α) (hE : h.load E = some m) :
    h.NewRespByMessage w R E C = some (some h.cells.length,
      { cells := h.cells ++ [(X.NewRespByMessage w m C).1] },
      (X.NewRespByMessage w m C).2) := by
  have hl : ∀ x, Mem.load { cells := h.cells ++ [x] } E = some m :=
    fun x => Mem.load_old h.cells x E m hE
  simp [Mem.NewRespByMessage, Mem.NewMessage_eq, Mem.GetID, Mem.GetSource, Mem.GetGroup,
    Mem.GetResource, Mem.SetRoute, Mem.SetResourceOperation, Mem.FillBody, Mem.mutate_fresh,
    hl, hE, Message.NewRespByMessage]

theorem Mem.NewErrorMessage_eq (h : Mem α) (w : World) (E : Ptr) (m : Message α)
    (T : String) (hE : h.load E = some m) :
    h.NewErrorMessage w E T = some (some h.cells.length,
      { cells := h.cells ++ [(model.NewErrorMessage w m T).1] },
      (model.NewErrorMessage w m T).2) := by
  have hl : ∀ x, Mem.load { cells := h.cells ++ [x] } E = some m :=
    fun x => Mem.load_old h.cells x E m hE
  simp [Mem.NewErrorMessage, Mem.NewMessage_eq, Mem.SetResourceOperation, Mem.FillBody,
    Mem.mutate_fresh, hl, hE, model.NewErrorMessage]

/-- C18. `Clone` and `NewRespByMessage` ignore their receiver: for all receivers
`R`, `R2`, nil included, the call gives the same result.
When `E` points to a message `m`, each of `Clone`, `NewRespByMessage` and
`NewErrorMessage` returns the address of one newly allocated cell whose content
is determined by `m`, the generated id and the clock alone, and leaves every
message that was in memory before the call, those of `R` and `E` included,
exactly as it was. -/
theorem derivations_ignore_receiver_and_preserve_memory (h : Mem α) (w : World)
    (R R2 E : Ptr) (m X : Message α) (C : Payload α) (T : String)
    (hE : h.load E = some m) :
    h.Clone w R E = h.Clone w R2 E ∧
    h.NewRespByMessage w R E C = h.NewRespByMessage w R2 E C ∧
    h.Clone w R E = some (some h.cells.length,
      { cells := h.cells ++ [(X.Clone w m).1] }, (X.Clone w m).2) ∧
    h.NewRespByMessage w R E C = some (some h.cells.length,
      { cells := h.cells ++ [(X.NewRespByMessage w m C).1] },
      (X.NewRespByMessage w m C).2) ∧
    h.NewErrorMessage w E T = some (some h.cells.length,
      { cells := h.cells ++ [(NewErrorMessage w m T).1] }, (NewErrorMessage w m T).2) ∧
    h.Preserved (h.Clone w R E) ∧
    h.Preserved (h.NewRespByMessage w R E C) ∧
    h.Preserved (h.NewErrorMessage w E T) ∧
    (h.Clone w R E).bind (fun r => r.2.1.load E) = some m ∧
    (h.NewRespByMessage w R E C).bind (fun r => r.2.1.load E) = some m ∧
    (h.NewErrorMessage w E T).bind (fun r => r.2.1.load E) = some m := by
  have hc := Mem.Clone_eq h w R E m X hE
  have hr := Mem.NewRespByMessage_eq h w R E m X C hE
  have he := Mem.NewErrorMessage_eq h w E m T hE
  have hold : ∀ x, Mem.load { cells := h.cells ++ [x] } E = some m :=
    fun x => Mem.load_old h.cells x E m hE
  refine ⟨?_, ?_, hc, hr, he, Mem.preserved_of_eq h _ _ _ _ hc,
    Mem.preserved_of_eq h _ _ _ _ hr, Mem.preserved_of_eq h _ _ _ _ he, ?_, ?_, ?_⟩
  · rw [hc, Mem.Clone_eq h w R2 E m X hE]
  · rw [hr, Mem.NewRespByMessage_eq h w R2 E m X C hE]
  · rw [hc]; exact hold _
  · rw [hr]; exact hold _
  · rw [he]; exact hold _

/-- Instance of C18: in the memory holding envelope A at address 0, A is cloned,
answered and reported as failed, once through a nil receiver and once through
the receiver at address 1. -/
theorem derivations_ignore_receiver_and_preserve_memory_witness :
    scenarioMem.load (some 0) = some scenarioA.1 ∧
    scenarioMem.Clone scenarioA.2 none (some 0) =
      scenarioMem.Clone scenarioA.2 (some 1) (some 0) ∧
    scenarioMem.Preserved (scenarioMem.Clone scenarioA.2 none (some 0)) ∧
    scenarioMem.Preserved (scenarioMem.NewErrorMessage scenarioA.2 (some 0) "not found") ∧
    (scenarioMem.NewRespByMessage scenarioA.2 none (some 0)
      (Payload.other [("status", "ok")])).bind (fun r => r.2.1.load (some 0)) =
      some scenarioA.1 :=
  have h := derivations_ignore_receiver_and_preserve_memory scenarioMem scenarioA.2 none
    (some 1) (some 0) scenarioA.1 scenarioSync (Payload.other [("status", "ok")])
    "not found" rfl
  ⟨rfl, h.1, h.2.2.2.2.2.1, h.2.2.2.2.2.2.2.1, h.2.2.2.2.2.2.2.2.2.1⟩

/-! ### Wire form -/

theorem getD_omitEmptyString (s : String) : (omitEmptyString s).getD "" = s := by
  unfold omitEmptyString
  split
  · next h => simp [h]
  · rfl

theorem getD_omitFalse (b : Bool) : (omitFalse b).getD false = b := by
  cases b <;> rfl

theorem decodeHeader_encodeHeader (h : MessageHeader) : decodeHeader (encodeHeader h) = h := by
  cases h
  simp [decodeHeader, encodeHeader, getD_omitEmptyString, getD_omitFalse]

theorem decodeRoute_encodeRoute (r : MessageRoute) : decodeRoute (encodeRoute r) = r := by
  unfold encodeRoute
  split
  · next h => rw [h]; rfl
  · cases r
    simp [decodeRoute, getD_omitEmptyString]

/-- C15. Round trip on the wire representation described by the specification:
for every message, encoding it to the wire record (header with `msg_id`,
`parent_msg_id`, `timestamp`, `sync`; route with `source`, `group`, `operation`,
`resource`; `content`) and decoding the result reproduces every field exactly.
The fields that must be on the wire carry the id, the timestamp and the content
as they are; an optional field is dropped exactly when it is empty, and decoding
gives it back its empty value. -/
theorem decode_encode (m : Message α) :
    decode (encode m) = m ∧
    (encode m).header.msg_id = m.GetID ∧
    (encode m).header.timestamp = m.GetTimestamp ∧
    (encode m).content = m.GetContent ∧
    ((encode m).header.parent_msg_id = none ↔ m.GetParentID = "") ∧
    ((encode m).header.sync = none ↔ m.IsSync = false) ∧
    ((encode m).route = none ↔ m.Router = {}) := by
  refine ⟨?_, rfl, rfl, rfl, ?_, ?_, ?_⟩
  · cases m
    simp [decode, encode, decodeHeader_encodeHeader, decodeRoute_encodeRoute]
  · simp [encode, encodeHeader, omitEmptyString, Message.GetParentID]
  · cases hs : m.Header.Sync <;>
      simp [encode, encodeHeader, omitFalse, Message.IsSync, hs]
  · simp [encode, encodeRoute]

end Theorems

end model
